import Mathlib

/-!
Shallow embedding of the orchestration core of the Scraper repository
(guruvedhanth-s/Scraper): the Blacklight queue orchestrator
(`runBlacklightQueue` in src/server.js), the auto-poll scheduler
(`autoCheckQueue` in src/server.js), the resilient API client
(`makeApiRequest` in src/common/utils.js), the per-call protocol handlers
(`getNextRoleLocation` in src/common/utils.js), the credential-lease
tracking of `CredentialsAPIClient` (src/README.md embedded source of
common/credentialsAPI.js), and the per-scraper credential-failure
classification (LinkedIn and Glassdoor in src/unnamed/part_000,
TechFetch in src/scrapers/techfetch.js).

Backend interactions are modelled by an environment (`Env`) supplying the
outcome of each outbound call; each modelled operation returns both its
JavaScript-level outcome (`Except` for thrown exceptions) and the trace of
calls it issued.
-/

namespace Scraper

/-- JS `String.prototype.includes` helper: `leadsWith pat s` is true when
`pat` is an initial segment of `s` (character lists). -/
def leadsWith : List Char → List Char → Bool
  | [], _ => true
  | _ :: _, [] => false
  | a :: as, b :: bs => a == b && leadsWith as bs

/-- Auxiliary scan for substring containment over character lists. -/
def hasSubAux (pat : List Char) : List Char → Bool
  | [] => leadsWith pat []
  | c :: rest => leadsWith pat (c :: rest) || hasSubAux pat rest

/-- JS `s.includes(pat)`. -/
def strIncludes (s pat : String) : Bool :=
  hasSubAux pat.data s.data

/-- JS `s.toLowerCase()` on the ASCII platform names the code handles
(character-wise lowering). -/
def strToLower (s : String) : String :=
  ⟨s.data.map Char.toLower⟩

/-! ## Resilient API client (src/common/utils.js, `makeApiRequest`) -/

/-- Outcome of one `fetch` attempt: an HTTP response with a status code, or a
network-level exception carrying a message. -/
inductive FetchOutcome where
  | resp (status : Nat)
  | exn (msg : String)
deriving DecidableEq, Repr

/-- `const RETRY_DELAYS = [1000, 2000, 5000, 10000, 30000];` from
src/common/utils.js. -/
def RETRY_DELAYS : List Nat := [1000, 2000, 5000, 10000, 30000]

/-- JS `RETRY_DELAYS[attempt] || 30000` (every scheduled delay is non-zero,
so `||` is exactly the out-of-range fallback). -/
def retryDelay (attempt : Nat) : Nat :=
  RETRY_DELAYS.getD attempt 30000

/-- The retry loop of `makeApiRequest` (src/common/utils.js lines 215-267).
`f attempt` is the outcome of the fetch on that attempt; `remaining` is the
number of loop iterations left (`retries - attempt`, structural fuel for the
JS `for (let attempt = 0; attempt < retries; attempt++)`).  Returns the
JS outcome (`.ok status` = the response handed back to the caller,
`.error msg` = thrown), the list of delays slept, and the number of fetch
attempts performed. -/
def apiLoop (f : Nat → FetchOutcome) (retries : Nat) :
    Nat → Nat → Except String Nat × List Nat × Nat
  | 0, _ => (.error "Max retries exceeded", [], 0)
  | remaining + 1, attempt =>
    match f attempt with
    | .resp status =>
      if status = 429 ∨ 500 ≤ status then
        let r := apiLoop f retries remaining (attempt + 1)
        (r.1, retryDelay attempt :: r.2.1, r.2.2 + 1)
      else
        (.ok status, [], 1)
    | .exn msg =>
      if attempt = retries - 1 then
        (.error msg, [], 1)
      else
        let r := apiLoop f retries remaining (attempt + 1)
        (r.1, retryDelay attempt :: r.2.1, r.2.2 + 1)

/-- `makeApiRequest(url, options, retries)`: run the retry loop from attempt
0 with `retries` iterations available.  Every call site in the repository
uses the default `retries = 5`. -/
def makeApiRequest (f : Nat → FetchOutcome) (retries : Nat) :
    Except String Nat × List Nat × Nat :=
  apiLoop f retries retries 0

/-! ## Queue / session data model (src/server.js, src/common/utils.js) -/

/-- Status field of a job submission (`submitJobs` adds `status: 'failed'`
and `error_message` only on the failed path; otherwise status is the
default `'success'`). -/
inductive SubmitStatus where
  | success
  | failed
deriving DecidableEq, Repr

/-- The arguments of one `submitJobs(apiUrl, apiKey, sessionId, platform,
jobs, status, errorMessage)` call (src/common/utils.js lines 309-336).
Jobs are kept opaque as strings (the formatted wire objects). -/
structure SubmitReq where
  session_id : String
  platform : String
  jobs : List String
  status : SubmitStatus
  error_message : Option String
deriving DecidableEq, Repr

/-- One observable operation of an orchestrator run: the backend calls
issued through src/common/utils.js plus the scraper-collaborator
invocation (`await scraper(role.name, location, session_id)`). -/
inductive Call where
  | currentSession
  | nextRoleLocation
  | scrapeCall (platform : String)
  | submit (req : SubmitReq)
  | complete (session_id : String)
deriving DecidableEq, Repr

/-- Body of a 200 from `/api/scraper/queue/current-session`
(`checkActiveSession` returns the parsed JSON; the orchestrator reads only
`has_active_session`, the `session` sub-object is used for logging only). -/
structure SessionCheck where
  has_active_session : Bool
deriving DecidableEq, Repr

/-- One entry of a queue item's `platforms` array. -/
structure PlatformInfo where
  name : String
  display_name : String
deriving DecidableEq, Repr

/-- A queue item returned by `/api/scraper/queue/next-role-location`
(the fields the orchestrator destructures; `role.aliases` and
`role.candidate_count` are used for logging only). -/
structure QueueItem where
  session_id : String
  roleName : String
  location : String
  platforms : List PlatformInfo
deriving DecidableEq, Repr

/-- HTTP-level outcome of the `next-role-location` fetch, as seen by
`getNextRoleLocation` after `makeApiRequest` has returned a response:
204, 409, a 2xx with a parsed queue item, or some other non-ok status. -/
inductive NextRoleResp where
  | status204
  | status409
  | okItem (q : QueueItem)
  | httpError (status : Nat)
deriving DecidableEq, Repr

/-- `getNextRoleLocation` (src/common/utils.js lines 285-307): 204 returns
`null` (queue empty), 409 **throws** `'Scraper already has an active
session'`, an ok response returns the parsed queue item, anything else
throws a diagnostic error. -/
def getNextRoleLocation : NextRoleResp → Except String (Option QueueItem)
  | .status204 => .ok none
  | .status409 => .error "Scraper already has an active session"
  | .okItem q => .ok (some q)
  | .httpError status =>
    .error ("Failed to get next role+location: " ++ toString status)

/-- Per-platform entry of `results.platforms` in `runBlacklightQueue`:
`{success: true, jobs_found, jobs_submitted}` or
`{success: false, error}`. -/
inductive PlatResult where
  | ok (jobs_found jobs_submitted : Nat)
  | failed (error : String)
deriving DecidableEq, Repr

/-- The `results` object built by `runBlacklightQueue` (src/server.js lines
109-119 and mutations through line 212).  `platforms` is the JS object in
insertion order; `successful`/`failed`/`total_platforms` mirror
`results.summary`. -/
structure RunResults where
  session_id : String
  role : String
  location : String
  platforms : List (String × PlatResult)
  successful : Nat
  failed : Nat
  total_platforms : Nat
  completion : Option String
  completion_error : Option String
deriving DecidableEq, Repr

/-- JS object property assignment `obj[k] = v`: overwrite in place if the
key exists, otherwise append. -/
def objSet (m : List (String × PlatResult)) (k : String) (v : PlatResult) :
    List (String × PlatResult) :=
  match m with
  | [] => [(k, v)]
  | (k', v') :: rest =>
    if k' = k then (k, v) :: rest else (k', v') :: objSet rest k v

/-- What `runBlacklightQueue` can return (as opposed to throw):
`{error: ...}`, `{message: ...}`, or the full results object. -/
inductive RunVal where
  | errorResult (msg : String)
  | messageResult (msg : String)
  | results (r : RunResults)
deriving DecidableEq, Repr

/-- `Object.keys(SCRAPERS)`: the platforms with a registered scraper
(src/server.js lines 50-56). -/
def knownPlatforms : List String :=
  ["monster", "dice", "techfetch", "linkedin", "glassdoor"]

/-- Environment: the outcome of each outbound interaction as a function of
its request.  `scrape p` is the collaborator result for platform `p`
(`.error` = the scraper threw); `submit req` is the backend outcome of a
`submitJobs` call (`.error` = `submitJobs` threw); `complete` is the
outcome of `completeSession` (`.ok` carries the parsed response, kept
opaque as a string). -/
structure Env where
  blacklightConfigured : Bool
  sessionCheck : Except String SessionCheck
  nextRole : NextRoleResp
  scrape : String → Except String (List String)
  submit : SubmitReq → Except String Unit
  complete : Except String String

/-- One iteration of the platform loop of `runBlacklightQueue`
(src/server.js lines 124-184) on `platformInfo`, given the results
accumulator.  Returns the updated accumulator (`.error` = an exception
escaped the iteration, which in the source happens only on the *unknown
platform* branch whose `await submitJobs(...)` is not wrapped in any
`try`) and the calls issued. -/
def stepPlatform (env : Env) (sid : String) (p : PlatformInfo)
    (acc : RunResults) : Except String RunResults × List Call :=
  if (strToLower p.name) ∈ knownPlatforms then
    match env.scrape (strToLower p.name) with
    | .ok jobs =>
      -- formatted = jobs.map(formatJobForBlacklight): same length, opaque
      match env.submit ⟨sid, (strToLower p.name), jobs, .success, none⟩ with
      | .ok _ =>
        (.ok { acc with
                platforms := objSet acc.platforms (strToLower p.name)
                  (.ok jobs.length jobs.length),
                successful := acc.successful + 1 },
         [.scrapeCall (strToLower p.name),
          .submit ⟨sid, (strToLower p.name), jobs, .success, none⟩])
      | .error e =>
        -- the success-path submit threw: outer catch reports the failure,
        -- the failure-report submit is inside its own try/catch (swallowed)
        (.ok { acc with
                platforms := objSet acc.platforms (strToLower p.name) (.failed e),
                failed := acc.failed + 1 },
         [.scrapeCall (strToLower p.name),
          .submit ⟨sid, (strToLower p.name), jobs, .success, none⟩,
          .submit ⟨sid, (strToLower p.name), [], .failed, some e⟩])
    | .error e =>
      -- the scraper threw: outer catch reports the failure; the
      -- failure-report submit is inside its own try/catch (swallowed)
      (.ok { acc with
              platforms := objSet acc.platforms (strToLower p.name) (.failed e),
              failed := acc.failed + 1 },
       [.scrapeCall (strToLower p.name),
        .submit ⟨sid, (strToLower p.name), [], .failed, some e⟩])
  else
    -- unknown platform: `await submitJobs(..., 'failed', ...)` is issued
    -- outside any try block, so its failure escapes the loop
    match env.submit ⟨sid, (strToLower p.name), [], .failed,
        some ("Platform not supported: " ++ (strToLower p.name))⟩ with
    | .ok _ =>
      (.ok { acc with
              platforms := objSet acc.platforms (strToLower p.name)
                (.failed "Platform not supported"),
              failed := acc.failed + 1 },
       [.submit ⟨sid, (strToLower p.name), [], .failed,
          some ("Platform not supported: " ++ (strToLower p.name))⟩])
    | .error e =>
      (.error e,
       [.submit ⟨sid, (strToLower p.name), [], .failed,
          some ("Platform not supported: " ++ (strToLower p.name))⟩])

/-- The calls one iteration of the platform loop issues for `p`; they
depend only on the environment, the session id and the platform, never on
the results accumulator. -/
def platformCalls (env : Env) (sid : String) (p : PlatformInfo) : List Call :=
  if (strToLower p.name) ∈ knownPlatforms then
    match env.scrape (strToLower p.name) with
    | .ok jobs =>
      match env.submit ⟨sid, (strToLower p.name), jobs, .success, none⟩ with
      | .ok _ =>
        [.scrapeCall (strToLower p.name),
         .submit ⟨sid, (strToLower p.name), jobs, .success, none⟩]
      | .error e =>
        [.scrapeCall (strToLower p.name),
         .submit ⟨sid, (strToLower p.name), jobs, .success, none⟩,
         .submit ⟨sid, (strToLower p.name), [], .failed, some e⟩]
    | .error e =>
      [.scrapeCall (strToLower p.name),
       .submit ⟨sid, (strToLower p.name), [], .failed, some e⟩]
  else
    [.submit ⟨sid, (strToLower p.name), [], .failed,
       some ("Platform not supported: " ++ (strToLower p.name))⟩]

/-- The per-platform call blocks of a platform list, concatenated in list
order. -/
def platformCallsList (env : Env) (sid : String) :
    List PlatformInfo → List Call
  | [] => []
  | p :: rest => platformCalls env sid p ++ platformCallsList env sid rest

/-- The platform loop `for (const platformInfo of platforms)` of
`runBlacklightQueue`, strictly sequential in list order.  An exception
escaping an iteration aborts the rest of the loop. -/
def processPlatforms (env : Env) (sid : String) :
    List PlatformInfo → RunResults → Except String RunResults × List Call
  | [], acc => (.ok acc, [])
  | p :: rest, acc =>
    match stepPlatform env sid p acc with
    | (.ok acc', cs) =>
      let r := processPlatforms env sid rest acc'
      (r.1, cs ++ r.2)
    | (.error e, cs) => (.error e, cs)

/-- Initial `results` object (src/server.js lines 109-119). -/
def initResults (qi : QueueItem) : RunResults :=
  { session_id := qi.session_id
    role := qi.roleName
    location := qi.location
    platforms := []
    successful := 0
    failed := 0
    total_platforms := qi.platforms.length
    completion := none
    completion_error := none }

/-- `runBlacklightQueue` (src/server.js lines 62-213).  Returns the JS
outcome (`.error msg` = an exception escaped the function) and the trace
of calls issued. -/
def runBlacklightQueue (env : Env) : Except String RunVal × List Call :=
  if env.blacklightConfigured = false then
    (.error "Blacklight API configuration missing in credentials.json", [])
  else
    match env.sessionCheck with
    | .error e => (.error e, [.currentSession])
    | .ok sc =>
      if sc.has_active_session then
        (.ok (.errorResult "Active session already exists. Complete it first."),
         [.currentSession])
      else
        match getNextRoleLocation env.nextRole with
        | .error e => (.error e, [.currentSession, .nextRoleLocation])
        | .ok none =>
          (.ok (.messageResult "Queue is empty"),
           [.currentSession, .nextRoleLocation])
        | .ok (some qi) =>
          match processPlatforms env qi.session_id qi.platforms (initResults qi) with
          | (.error e, cs) =>
            (.error e, [Call.currentSession, Call.nextRoleLocation] ++ cs)
          | (.ok r, cs) =>
            match env.complete with
            | .ok resp =>
              (.ok (.results { r with completion := some resp }),
               [Call.currentSession, Call.nextRoleLocation] ++ cs
                 ++ [Call.complete qi.session_id])
            | .error e =>
              (.ok (.results { r with completion_error := some e }),
               [Call.currentSession, Call.nextRoleLocation] ++ cs
                 ++ [Call.complete qi.session_id])

/-- HTTP status the `/scrape-queue` handler (src/server.js lines 407-440)
responds with, as a function of the `runBlacklightQueue` outcome: a thrown
exception is caught and answered with 500; `{error}` with 409; `{message}`
and full results with 200. -/
def scrapeQueueStatus : Except String RunVal → Nat
  | .error _ => 500
  | .ok (.errorResult _) => 409
  | .ok (.messageResult _) => 200
  | .ok (.results _) => 200

/-! ## Auto-poll scheduler (src/server.js, lines 487-541) -/

/-- One execution of `autoCheckQueue` (src/server.js lines 491-523), as a
function of the configured flag, the current value of the module-level
`isProcessingQueue` guard, and the environment of the run it would start.
Returns `(final guard value, whether a run was started, the run's outcome
when started)`.  The `try { isProcessingQueue = true; ... } catch { ... }
finally { isProcessingQueue = false; }` structure means the guard ends
`false` whenever a run was started, whatever `runBlacklightQueue` returned
or threw; a trigger that finds the guard set (or finds Blacklight
unconfigured) returns at once, leaving the guard unchanged. -/
def autoCheckQueue (configured guard : Bool) (env : Env) :
    Bool × Bool × Option (Except String RunVal × List Call) :=
  if guard then (guard, false, none)
  else if configured = false then (guard, false, none)
  else (false, true, some (runBlacklightQueue env))

/-- State of the process relevant to run concurrency: the
`isProcessingQueue` boolean and the number of in-flight orchestrator
executions started by the scheduler resp. by the `/scrape-queue` HTTP
handler. -/
structure SchedState where
  guard : Bool
  schedRuns : Nat
  httpRuns : Nat
deriving DecidableEq, Repr

/-- Triggers of an orchestrator run and their completions.  `schedStart`
is `autoCheckQueue` reaching (or skipping) its guard check; `httpStart` is
the `/scrape-queue` handler invoking `runBlacklightQueue`. -/
inductive Trigger where
  | schedStart
  | schedEnd
  | httpStart
  | httpEnd
deriving DecidableEq, Repr

/-- Interleaving semantics of the two trigger sources.  A scheduled
trigger checks the guard and is a no-op when it is set (src/server.js
lines 493-496), otherwise sets the guard and starts a run; its completion
clears the guard (the `finally`).  The `/scrape-queue` handler
(src/server.js lines 407-440) calls `runBlacklightQueue` directly: it
neither checks nor sets `isProcessingQueue`. -/
def schedStep (s : SchedState) : Trigger → SchedState
  | .schedStart =>
    if s.guard then s
    else { s with guard := true, schedRuns := s.schedRuns + 1 }
  | .schedEnd =>
    if s.schedRuns = 0 then s
    else { s with guard := false, schedRuns := s.schedRuns - 1 }
  | .httpStart => { s with httpRuns := s.httpRuns + 1 }
  | .httpEnd =>
    if s.httpRuns = 0 then s
    else { s with httpRuns := s.httpRuns - 1 }

/-- Run a sequence of triggers from a state. -/
def schedRun (s : SchedState) (evs : List Trigger) : SchedState :=
  evs.foldl schedStep s

/-- Number of concurrent in-flight orchestrator executions. -/
def inFlight (s : SchedState) : Nat :=
  s.schedRuns + s.httpRuns

/-- Process start: guard clear, nothing in flight. -/
def initState : SchedState :=
  { guard := false, schedRuns := 0, httpRuns := 0 }

/-! ## Credential-failure classification
(src/unnamed/part_000: `scrapeLinkedIn` lines 972-1002 and
`scrapeGlassdoor` lines 1596-1612; src/scrapers/techfetch.js lines
620-652) -/

/-- Arguments of one `apiClient.reportFailure(platform, message,
cooldownMinutes)` call. -/
structure FailureReport where
  platform : String
  message : String
  cooldown : Nat
deriving DecidableEq, Repr

/-- What the scraper's catch block does with the credential loop after
reporting: fall through / `continue` to the next credential, or re-throw
the error out of the scraper. -/
inductive LoopAction where
  | continueLoop
  | rethrow
deriving DecidableEq, Repr

/-- LinkedIn catch block (src/unnamed/part_000 lines 972-1002): classify
by message substrings; always proceeds to the next credential attempt
(no `throw`, the `while` loop continues). -/
def linkedinOnError (loginSuccess : Bool) (msg : String) :
    FailureReport × LoopAction :=
  if loginSuccess = false then
    if strIncludes msg "Login failed" || strIncludes msg "credentials"
        || strIncludes msg "waitForSelector" then
      (⟨"linkedin", "Login failed: " ++ msg, 0⟩, .continueLoop)
    else if strIncludes msg "rate limit" || strIncludes msg "challenge" then
      (⟨"linkedin", "Rate limited or challenge: " ++ msg, 60⟩, .continueLoop)
    else
      (⟨"linkedin", "Credential error: " ++ msg, 0⟩, .continueLoop)
  else
    (⟨"linkedin", "Scraping error: " ++ msg, 30⟩, .continueLoop)

/-- TechFetch catch block (src/scrapers/techfetch.js lines 620-652):
classify by message substrings; both branches end in `continue`. -/
def techfetchOnError (loginSuccess : Bool) (msg : String) :
    FailureReport × LoopAction :=
  if loginSuccess = false then
    if strIncludes msg "Login" || strIncludes msg "credentials" then
      (⟨"techfetch", "Login failed: " ++ msg, 0⟩, .continueLoop)
    else if strIncludes msg "rate limit" then
      (⟨"techfetch", "Rate limited: " ++ msg, 60⟩, .continueLoop)
    else
      (⟨"techfetch", "Credential error: " ++ msg, 0⟩, .continueLoop)
  else
    (⟨"techfetch", "Scraping error: " ++ msg, 30⟩, .continueLoop)

/-- Glassdoor catch block (src/unnamed/part_000 lines 1596-1612): reports
only when login had not succeeded, with `other → 30`, and always ends in
`throw error` (there is no credential retry loop in `scrapeGlassdoor`). -/
def glassdoorOnError (loginSuccess : Bool) (msg : String) :
    Option FailureReport × LoopAction :=
  if loginSuccess = false then
    if strIncludes msg "cookie" || strIncludes msg "login"
        || strIncludes msg "auth" then
      (some ⟨"glassdoor", "Authentication failed: " ++ msg, 0⟩, .rethrow)
    else if strIncludes msg "rate limit" || strIncludes msg "blocked" then
      (some ⟨"glassdoor", "Rate limited or blocked: " ++ msg, 60⟩, .rethrow)
    else
      (some ⟨"glassdoor", "Scraping error: " ++ msg, 30⟩, .rethrow)
  else
    (none, .rethrow)

/-- Outcome of one credential attempt of the LinkedIn/TechFetch outer
loop: the scrape succeeded with a job list, or threw with a message while
`loginSuccess` had the given value. -/
inductive AttemptOutcome where
  | success (jobs : List String)
  | failure (msg : String) (loginSuccess : Bool)

/-- The outer credential loop skeleton shared by `scrapeLinkedIn` and
`scrapeTechFetch`: `while (attemptCount < maxAttempts)`, on failure report
via the platform's catch-block classification and continue with the next
credential, on success return the jobs; when all attempts are exhausted,
throw the last error (or the given default when none was observed). -/
def credLoop (onError : Bool → String → FailureReport × LoopAction)
    (defaultErr : String) (outcome : Nat → AttemptOutcome) :
    Nat → Nat → Option String → Except String (List String) × List FailureReport
  | 0, _, lastErr => (.error (lastErr.getD defaultErr), [])
  | fuel + 1, attempt, _lastErr =>
    match outcome attempt with
    | .success jobs => (.ok jobs, [])
    | .failure msg ls =>
      let rep := (onError ls msg).1
      let r := credLoop onError defaultErr outcome fuel (attempt + 1) (some msg)
      (r.1, rep :: r.2)

/-! ## Credential lease tracking (`CredentialsAPIClient`,
common/credentialsAPI.js, embedded in src/README.md lines 1244-1460) -/

/-- JS `Map.set(k, v)`: overwrite in place if the key exists, else
append. -/
def mapSet (m : List (String × Nat)) (k : String) (v : Nat) :
    List (String × Nat) :=
  match m with
  | [] => [(k, v)]
  | (k', v') :: rest =>
    if k' = k then (k, v) :: rest else (k', v') :: mapSet rest k v

/-- JS `Map.get(k)`. -/
def mapGet (m : List (String × Nat)) (k : String) : Option Nat :=
  match m with
  | [] => none
  | (k', v') :: rest => if k' = k then some v' else mapGet rest k

/-- `getCredential(platform)` on a 200 response with credential id
`credId` (src/README.md lines 1272-1317): unconditionally
`this.activeCredentials.set(platform, {id, data})` — the currently tracked
entry, if any, is overwritten; there is no assertion, panic, or error path
for an already-held platform. -/
def getCredentialTrack (m : List (String × Nat)) (platform : String)
    (credId : Nat) : List (String × Nat) :=
  mapSet m platform credId

/-- The keys of the lease map are pairwise distinct (JS `Map`
invariant). -/
def keysNodup (m : List (String × Nat)) : Prop :=
  (m.map Prod.fst).Nodup

/-! ## Trace projections and concrete test environments -/

/-- Is this call a session-completion call? -/
def isComplete : Call → Bool
  | .complete _ => true
  | _ => false

/-- Is this call a job submission or a session-completion call? -/
def isSubmitOrComplete : Call → Bool
  | .submit _ => true
  | .complete _ => true
  | _ => false

/-- The sequence of scraper-collaborator invocations in a trace, by
platform name. -/
def scrapeSeq (tr : List Call) : List String :=
  tr.filterMap fun c =>
    match c with
    | .scrapeCall q => some q
    | _ => none

/-- Does this call concern platform `pn` (its scrape, or a submission for
it)? -/
def callsFor (pn : String) : Call → Bool
  | .scrapeCall q => q == pn
  | .submit req => req.platform == pn
  | _ => false

/-- A concrete environment in which the `next-role-location` fetch returns
HTTP 409: configured, no active session reported, every other interaction
succeeding. -/
def env409 : Env :=
  { blacklightConfigured := true
    sessionCheck := .ok ⟨false⟩
    nextRole := .status409
    scrape := fun _ => .ok []
    submit := fun _ => .ok ()
    complete := .ok "done" }

/-- A concrete environment whose current-session check reports an active
session. -/
def envActive : Env :=
  { blacklightConfigured := true
    sessionCheck := .ok ⟨true⟩
    nextRole := .status204
    scrape := fun _ => .ok []
    submit := fun _ => .ok ()
    complete := .ok "done" }

/-- A concrete environment in which every scrape attempt throws `"boom"`
(and, notably, in which the failure-report submission itself also throws,
exercising the inner try/catch of the dispatch loop). -/
def envC3 : Env :=
  { blacklightConfigured := true
    sessionCheck := .ok ⟨false⟩
    nextRole := .status204
    scrape := fun _ => .error "boom"
    submit := fun req =>
      if req.status = SubmitStatus.failed then .error "submit down" else .ok ()
    complete := .ok "done" }

/-- A concrete queue item: two platforms, both with registered scrapers. -/
def qiC4 : QueueItem :=
  ⟨"s1", "DevOps Engineer", "New York",
   [⟨"dice", "Dice"⟩, ⟨"linkedin", "LinkedIn"⟩]⟩

/-- A concrete environment delivering `qiC4`, in which the dice scrape
fails, the linkedin scrape succeeds, and the completion call throws. -/
def envC4 : Env :=
  { blacklightConfigured := true
    sessionCheck := .ok ⟨false⟩
    nextRole := .okItem qiC4
    scrape := fun p => if p = "dice" then .error "boom" else .ok ["j1"]
    submit := fun _ => .ok ()
    complete := .error "oops" }

/-- A concrete environment in which every scrape succeeds with one job. -/
def envC7 : Env :=
  { blacklightConfigured := true
    sessionCheck := .ok ⟨false⟩
    nextRole := .status204
    scrape := fun _ => .ok ["j"]
    submit := fun _ => .ok ()
    complete := .ok "done" }

/-- A concrete credential-attempt schedule: the first credential fails
before login, the second succeeds. -/
def attemptW : Nat → AttemptOutcome :=
  fun i => if i = 0 then .failure "x" false else .success ["j"]

/-! ## Helper lemmas -/

theorem stepPlatform_calls (env : Env) (sid : String) (p : PlatformInfo)
    (acc : RunResults) :
    (stepPlatform env sid p acc).2 = platformCalls env sid p := by
  simp only [stepPlatform, platformCalls]
  split
  · cases h : env.scrape (strToLower p.name) with
    | ok jobs =>
      cases hs : env.submit ⟨sid, (strToLower p.name), jobs, .success, none⟩ <;>
        simp [h, hs]
    | error e => simp [h]
  · cases hs : env.submit ⟨sid, (strToLower p.name), [], .failed,
      some ("Platform not supported: " ++ (strToLower p.name))⟩ <;> simp [hs]

theorem stepPlatform_known_ok (env : Env) (sid : String) (p : PlatformInfo)
    (acc : RunResults) (hknown : (strToLower p.name) ∈ knownPlatforms) :
    ∃ acc', stepPlatform env sid p acc =
      (.ok acc', platformCalls env sid p) := by
  simp only [stepPlatform, platformCalls, if_pos hknown]
  cases h : env.scrape (strToLower p.name) with
  | ok jobs =>
    cases hs : env.submit ⟨sid, (strToLower p.name), jobs, .success, none⟩ <;>
      · simp only [h, hs]
        exact ⟨_, rfl⟩
  | error e =>
    simp only [h]
    exact ⟨_, rfl⟩

theorem processPlatforms_known (env : Env) (sid : String) :
    ∀ (ps : List PlatformInfo) (acc : RunResults),
    (∀ p ∈ ps, (strToLower p.name) ∈ knownPlatforms) →
    ∃ r, processPlatforms env sid ps acc =
      (.ok r, platformCallsList env sid ps)
  | [], acc, _ => ⟨acc, rfl⟩
  | p :: rest, acc, h => by
    obtain ⟨acc', hstep⟩ :=
      stepPlatform_known_ok env sid p acc (h p (List.mem_cons_self p rest))
    obtain ⟨r, hrest⟩ :=
      processPlatforms_known env sid rest acc'
        (fun q hq => h q (List.mem_cons_of_mem p hq))
    refine ⟨r, ?_⟩
    simp only [processPlatforms, hstep, hrest, platformCallsList]

theorem platformCalls_filter_complete (env : Env) (sid : String)
    (p : PlatformInfo) :
    (platformCalls env sid p).filter isComplete = [] := by
  simp only [platformCalls]
  split
  · cases h : env.scrape (strToLower p.name) with
    | ok jobs =>
      cases hs : env.submit ⟨sid, (strToLower p.name), jobs, .success, none⟩ <;>
        simp [h, hs, isComplete, List.filter]
    | error e => simp [h, isComplete, List.filter]
  · simp [isComplete, List.filter]

theorem platformCallsList_filter_complete (env : Env) (sid : String) :
    ∀ ps : List PlatformInfo,
    (platformCallsList env sid ps).filter isComplete = []
  | [] => rfl
  | p :: rest => by
    simp only [platformCallsList, List.filter_append,
      platformCalls_filter_complete, platformCallsList_filter_complete,
      List.nil_append]

theorem platformCalls_scrapeSeq (env : Env) (sid : String)
    (p : PlatformInfo) (hknown : (strToLower p.name) ∈ knownPlatforms) :
    scrapeSeq (platformCalls env sid p) = [(strToLower p.name)] := by
  simp only [platformCalls, if_pos hknown]
  cases h : env.scrape (strToLower p.name) with
  | ok jobs =>
    cases hs : env.submit ⟨sid, (strToLower p.name), jobs, .success, none⟩ <;>
      simp [h, hs, scrapeSeq, List.filterMap]
  | error e => simp [h, scrapeSeq, List.filterMap]

theorem platformCallsList_scrapeSeq (env : Env) (sid : String) :
    ∀ ps : List PlatformInfo,
    (∀ p ∈ ps, (strToLower p.name) ∈ knownPlatforms) →
    scrapeSeq (platformCallsList env sid ps) =
      ps.map (fun p => (strToLower p.name))
  | [], _ => rfl
  | p :: rest, h => by
    have h1 := platformCalls_scrapeSeq env sid p (h p (List.mem_cons_self p rest))
    have h2 := platformCallsList_scrapeSeq env sid rest
      (fun q hq => h q (List.mem_cons_of_mem p hq))
    simp only [scrapeSeq] at h1 h2
    simp only [platformCallsList, scrapeSeq, List.filterMap_append, h1, h2,
      List.map, List.singleton_append]

theorem platformCalls_callsFor (env : Env) (sid : String)
    (p : PlatformInfo) :
    (platformCalls env sid p).all (callsFor (strToLower p.name)) = true := by
  simp only [platformCalls]
  split
  · cases h : env.scrape (strToLower p.name) with
    | ok jobs =>
      cases hs : env.submit ⟨sid, (strToLower p.name), jobs, .success, none⟩ <;>
        simp [h, hs, callsFor]
    | error e => simp [h, callsFor]
  · simp [callsFor]

theorem apiLoop_attempts_le (f : Nat → FetchOutcome) (retries : Nat) :
    ∀ (remaining attempt : Nat),
    (apiLoop f retries remaining attempt).2.2 ≤ remaining
  | 0, _ => Nat.le_refl 0
  | remaining + 1, attempt => by
    have ih := apiLoop_attempts_le f retries remaining (attempt + 1)
    simp only [apiLoop]
    cases hf : f attempt with
    | resp status =>
      by_cases hc : status = 429 ∨ 500 ≤ status
      · simp only [if_pos hc]
        exact Nat.succ_le_succ ih
      · simp only [if_neg hc]
        exact Nat.succ_le_succ (Nat.zero_le remaining)
    | exn msg =>
      by_cases hc : attempt = retries - 1
      · simp only [if_pos hc]
        exact Nat.succ_le_succ (Nat.zero_le remaining)
      · simp only [if_neg hc]
        exact Nat.succ_le_succ ih

theorem mapGet_mapSet_self (k : String) (v : Nat) :
    ∀ m : List (String × Nat), mapGet (mapSet m k v) k = some v
  | [] => by simp [mapSet, mapGet]
  | (k', v') :: rest => by
    by_cases h : k' = k
    · simp [mapSet, mapGet, h]
    · simp [mapSet, mapGet, h, mapGet_mapSet_self k v rest]

theorem mapSet_keys_sub (k : String) (v : Nat) :
    ∀ m : List (String × Nat),
    ∀ a ∈ (mapSet m k v).map Prod.fst, a = k ∨ a ∈ m.map Prod.fst
  | [] => by simp [mapSet]
  | (k', v') :: rest => by
    by_cases h : k' = k
    · simp only [mapSet, if_pos h, List.map, List.mem_cons]
      intro a ha
      rcases ha with ha | ha
      · exact Or.inl ha
      · exact Or.inr (Or.inr ha)
    · simp only [mapSet, if_neg h, List.map, List.mem_cons]
      intro a ha
      rcases ha with ha | ha
      · exact Or.inr (Or.inl ha)
      · rcases mapSet_keys_sub k v rest a (by simpa using ha) with h1 | h1
        · exact Or.inl h1
        · exact Or.inr (Or.inr h1)

theorem mapSet_keysNodup (k : String) (v : Nat) :
    ∀ m : List (String × Nat), keysNodup m → keysNodup (mapSet m k v)
  | [], _ => by simp [keysNodup, mapSet]
  | (k', v') :: rest, h => by
    simp only [keysNodup, List.map, List.nodup_cons] at h
    by_cases hk : k' = k
    · simp only [mapSet, if_pos hk, keysNodup, List.map, List.nodup_cons]
      exact ⟨hk ▸ h.1, h.2⟩
    · simp only [mapSet, if_neg hk, keysNodup, List.map, List.nodup_cons]
      refine ⟨?_, mapSet_keysNodup k v rest h.2⟩
      intro hmem
      rcases mapSet_keys_sub k v rest k' hmem with h1 | h1
      · exact hk h1
      · exact h.1 h1

theorem sched_inv :
    ∀ (evs : List Trigger) (s : SchedState),
    (∀ e ∈ evs, e = Trigger.schedStart ∨ e = Trigger.schedEnd) →
    s.httpRuns = 0 → s.schedRuns = (if s.guard then 1 else 0) →
    (schedRun s evs).httpRuns = 0 ∧
    (schedRun s evs).schedRuns =
      (if (schedRun s evs).guard then 1 else 0)
  | [], s, _, h1, h2 => ⟨h1, h2⟩
  | e :: rest, s, hevs, h1, h2 => by
    have hstep : schedRun s (e :: rest) = schedRun (schedStep s e) rest := rfl
    rw [hstep]
    rcases hevs e (List.mem_cons_self e rest) with he | he <;> subst he
    · by_cases hg : s.guard
      · have hs : schedStep s .schedStart = s := by simp [schedStep, hg]
        rw [hs]
        exact sched_inv rest s (fun x hx => hevs x (List.mem_cons_of_mem _ hx)) h1 h2
      · refine sched_inv rest _ (fun x hx => hevs x (List.mem_cons_of_mem _ hx)) ?_ ?_
        · simp [schedStep, hg, h1]
        · simp only [Bool.not_eq_true] at hg
          rw [hg] at h2
          simp only [if_neg Bool.false_ne_true] at h2
          simp [schedStep, hg, h2]
    · by_cases hz : s.schedRuns = 0
      · have hs : schedStep s .schedEnd = s := by simp [schedStep, hz]
        rw [hs]
        exact sched_inv rest s (fun x hx => hevs x (List.mem_cons_of_mem _ hx)) h1 h2
      · refine sched_inv rest _ (fun x hx => hevs x (List.mem_cons_of_mem _ hx)) ?_ ?_
        · simp [schedStep, hz, h1]
        · have hg : s.guard = true := by
            by_contra hg
            simp only [Bool.not_eq_true] at hg
            rw [hg] at h2
            simp only [if_neg Bool.false_ne_true] at h2
            exact hz h2
          rw [hg] at h2
          simp only [if_pos rfl] at h2
          simp [schedStep, hz, h2]

/-! ## Claim theorems -/

/-- Claim C6: the API client retries on HTTP 429, HTTP status ≥ 500, and
network-level exceptions using exactly the fixed delay schedule
`[1000, 2000, 5000, 10000, 30000]` ms indexed by attempt number, with at
most 5 attempts total: any other status is returned immediately with no
delay and a single attempt; four 500s followed by a 200 succeed consuming
exactly the first four scheduled delays; five consecutive 500s exhaust the
budget and raise the terminal `Max retries exceeded` error, having
consumed the whole schedule; a network exception (or a 429) on attempt 0
sleeps the first scheduled delay (1000 ms) and continues with attempt 1;
and the number of fetch attempts never exceeds the retry budget. -/
theorem makeApiRequest_retry_policy :
    (∀ (f : Nat → FetchOutcome) (status : Nat), f 0 = .resp status →
      status ≠ 429 → status < 500 →
      makeApiRequest f 5 = (.ok status, [], 1)) ∧
    (makeApiRequest (fun i => if i < 4 then .resp 500 else .resp 200) 5 =
      (.ok 200, [1000, 2000, 5000, 10000], 5)) ∧
    (makeApiRequest (fun _ => .resp 500) 5 =
      (.error "Max retries exceeded", RETRY_DELAYS, 5)) ∧
    (∀ (f : Nat → FetchOutcome) (msg : String), f 0 = .exn msg →
      makeApiRequest f 5 =
        ((apiLoop f 5 4 1).1, 1000 :: (apiLoop f 5 4 1).2.1,
          (apiLoop f 5 4 1).2.2 + 1)) ∧
    (∀ (f : Nat → FetchOutcome), f 0 = .resp 429 →
      makeApiRequest f 5 =
        ((apiLoop f 5 4 1).1, 1000 :: (apiLoop f 5 4 1).2.1,
          (apiLoop f 5 4 1).2.2 + 1)) ∧
    (∀ (f : Nat → FetchOutcome) (retries : Nat),
      (makeApiRequest f retries).2.2 ≤ retries) := by
  refine ⟨?_, ?_, ?_, ?_, ?_, ?_⟩
  · intro f status hf h429 h500
    have hc : ¬ (status = 429 ∨ 500 ≤ status) := by
      rintro (h | h)
      · exact h429 h
      · exact absurd h500 (Nat.not_lt.mpr h)
    simp only [makeApiRequest, apiLoop, hf, if_neg hc]
  · rfl
  · rfl
  · intro f msg hf
    have hc : ¬ ((0 : Nat) = 5 - 1) := by decide
    simp only [makeApiRequest, apiLoop, hf, if_neg hc, retryDelay]
    rfl
  · intro f hf
    have hc : (429 : Nat) = 429 ∨ 500 ≤ 429 := Or.inl rfl
    simp only [makeApiRequest, apiLoop, hf, if_pos hc, retryDelay]
    rfl
  · intro f retries
    exact apiLoop_attempts_le f retries retries 0

/-- Claim C6 witness: the universally quantified parts of
`makeApiRequest_retry_policy` evaluated at concrete inputs — a 404 is
handed back at once with one attempt and no delay, and a run with budget
7 performs at most 7 attempts. -/
theorem makeApiRequest_retry_policy_witness :
    makeApiRequest (fun _ => .resp 404) 5 = (.ok 404, [], 1) ∧
    (makeApiRequest (fun _ => .resp 500) 7).2.2 ≤ 7 :=
  ⟨makeApiRequest_retry_policy.1 (fun _ => .resp 404) 404 rfl
      (by decide) (by decide),
   makeApiRequest_retry_policy.2.2.2.2.2 (fun _ => .resp 500) 7⟩

/-- Claim C2: whenever the current-session check reports
`has_active_session: true`, the run returns
`{error: "Active session already exists. Complete it first."}` and issues
no further backend call that cycle — the trace is exactly the one
current-session call, with zero next-role-location, submit, or complete
calls. -/
theorem active_session_conflict_aborts (env : Env)
    (hconf : env.blacklightConfigured = true)
    (hsc : env.sessionCheck = .ok ⟨true⟩) :
    runBlacklightQueue env =
      (.ok (.errorResult "Active session already exists. Complete it first."),
       [Call.currentSession]) := by
  simp [runBlacklightQueue, hconf, hsc]

/-- Claim C2 witness: `active_session_conflict_aborts` at the concrete
environment `envActive`. -/
theorem active_session_conflict_aborts_witness :
    runBlacklightQueue envActive =
      (.ok (.errorResult "Active session already exists. Complete it first."),
       [Call.currentSession]) :=
  active_session_conflict_aborts envActive rfl rfl

/-- Claim C3: when the scrape of a (registered) platform fails with
message `e`, the dispatch loop submits `(status: failed, jobs: [],
error_message: e)` for that platform and then processes the remaining
platforms exactly as it would from the updated accumulator — the equation
holds for *every* environment, in particular for environments in which the
failure-report submission itself throws, so a submit failure is swallowed
by the inner try/catch and never re-thrown into the dispatch loop, and the
scrape failure never aborts the loop. -/
theorem scrape_failure_submits_failed_and_continues (env : Env)
    (sid : String) (p : PlatformInfo) (rest : List PlatformInfo)
    (acc : RunResults) (e : String)
    (hknown : (strToLower p.name) ∈ knownPlatforms)
    (hfail : env.scrape (strToLower p.name) = .error e) :
    processPlatforms env sid (p :: rest) acc =
      ((processPlatforms env sid rest
          { acc with
              platforms := objSet acc.platforms (strToLower p.name) (.failed e),
              failed := acc.failed + 1 }).1,
       [Call.scrapeCall (strToLower p.name),
        Call.submit ⟨sid, (strToLower p.name), [], .failed, some e⟩] ++
         (processPlatforms env sid rest
           { acc with
               platforms := objSet acc.platforms (strToLower p.name) (.failed e),
               failed := acc.failed + 1 }).2) := by
  have hstep : stepPlatform env sid p acc =
      (.ok { acc with
              platforms := objSet acc.platforms (strToLower p.name) (.failed e),
              failed := acc.failed + 1 },
       [Call.scrapeCall (strToLower p.name),
        Call.submit ⟨sid, (strToLower p.name), [], .failed, some e⟩]) := by
    simp only [stepPlatform, if_pos hknown, hfail]
  simp only [processPlatforms, hstep]

/-- Claim C3 witness: `scrape_failure_submits_failed_and_continues` at the
concrete environment `envC3` (where the failure-report submission itself
throws), a dice-then-monster platform list, and the empty accumulator. -/
theorem scrape_failure_submits_failed_and_continues_witness :
    processPlatforms envC3 "s1"
        [⟨"dice", "Dice"⟩, ⟨"monster", "Monster"⟩] (initResults qiC4) =
      ((processPlatforms envC3 "s1" [⟨"monster", "Monster"⟩]
          { initResults qiC4 with
              platforms := objSet (initResults qiC4).platforms "dice"
                (.failed "boom"),
              failed := (initResults qiC4).failed + 1 }).1,
       [Call.scrapeCall "dice",
        Call.submit ⟨"s1", "dice", [], .failed, some "boom"⟩] ++
         (processPlatforms envC3 "s1" [⟨"monster", "Monster"⟩]
           { initResults qiC4 with
               platforms := objSet (initResults qiC4).platforms "dice"
                 (.failed "boom"),
               failed := (initResults qiC4).failed + 1 }).2) :=
  scrape_failure_submits_failed_and_continues envC3 "s1"
    ⟨"dice", "Dice"⟩ [⟨"monster", "Monster"⟩] (initResults qiC4) "boom"
    (by decide) rfl

/-- Claim C4: for every fetched queue item (all of whose platforms have
registered scrapers — which is what "regardless of how many platforms
failed" ranges over, since scrape and submit outcomes are universally
quantified here), the completion call is attempted exactly once, after all
platform processing; if it fails, the message is recorded as
`completion_error` and the run still returns its structured `results`
object without throwing. -/
theorem completion_always_attempted_once (env : Env) (qi : QueueItem)
    (hconf : env.blacklightConfigured = true)
    (hsc : env.sessionCheck = .ok ⟨false⟩)
    (hnr : env.nextRole = .okItem qi)
    (hknown : ∀ p ∈ qi.platforms, (strToLower p.name) ∈ knownPlatforms) :
    ((runBlacklightQueue env).2.filter isComplete =
       [Call.complete qi.session_id]) ∧
    (∃ pre, (runBlacklightQueue env).2 = pre ++ [Call.complete qi.session_id] ∧
      pre.filter isComplete = []) ∧
    (∀ e, env.complete = .error e →
      ∃ r, (runBlacklightQueue env).1 = .ok (.results r) ∧
        r.completion_error = some e) ∧
    (∃ v, (runBlacklightQueue env).1 = .ok v) := by
  obtain ⟨r, hproc⟩ :=
    processPlatforms_known env qi.session_id qi.platforms (initResults qi) hknown
  have hpre : ([Call.currentSession, Call.nextRoleLocation] ++
      platformCallsList env qi.session_id qi.platforms).filter isComplete = [] := by
    simp only [List.filter_append,
      platformCallsList_filter_complete env qi.session_id qi.platforms]
    rfl
  cases hc : env.complete with
  | ok resp =>
    have hrun : runBlacklightQueue env =
        (.ok (.results { r with completion := some resp }),
         [Call.currentSession, Call.nextRoleLocation] ++
           platformCallsList env qi.session_id qi.platforms ++
           [Call.complete qi.session_id]) := by
      simp [runBlacklightQueue, hconf, hsc, hnr, getNextRoleLocation, hproc, hc]
    rw [hrun]
    refine ⟨?_, ⟨_, rfl, hpre⟩, ?_, ⟨_, rfl⟩⟩
    · simp only [List.filter_append, hpre]
      rfl
    · intro e he
      exact absurd he (by simp)
  | error e0 =>
    have hrun : runBlacklightQueue env =
        (.ok (.results { r with completion_error := some e0 }),
         [Call.currentSession, Call.nextRoleLocation] ++
           platformCallsList env qi.session_id qi.platforms ++
           [Call.complete qi.session_id]) := by
      simp [runBlacklightQueue, hconf, hsc, hnr, getNextRoleLocation, hproc, hc]
    rw [hrun]
    refine ⟨?_, ⟨_, rfl, hpre⟩, ?_, ⟨_, rfl⟩⟩
    · simp only [List.filter_append, hpre]
      rfl
    · intro e he
      cases he
      exact ⟨_, rfl, rfl⟩

/-- Claim C4 witness: `completion_always_attempted_once` on the concrete
environment `envC4` (one platform fails, the completion call throws). -/
theorem completion_always_attempted_once_witness :
    ((runBlacklightQueue envC4).2.filter isComplete =
       [Call.complete qiC4.session_id]) ∧
    (∃ pre, (runBlacklightQueue envC4).2 =
        pre ++ [Call.complete qiC4.session_id] ∧
      pre.filter isComplete = []) ∧
    (∀ e, envC4.complete = .error e →
      ∃ r, (runBlacklightQueue envC4).1 = .ok (.results r) ∧
        r.completion_error = some e) ∧
    (∃ v, (runBlacklightQueue envC4).1 = .ok v) :=
  completion_always_attempted_once envC4 qiC4 rfl rfl rfl (by decide)

/-- Claim C5 (as stated, refuted): a 409 from next-role-location does
*not* yield a typed conflict return value — `getNextRoleLocation` throws
`'Scraper already has an active session'`, the exception escapes
`runBlacklightQueue` (its outcome is `Except.error`, never `Except.ok`),
and the `/scrape-queue` handler answers 500, whereas the genuine
active-session CONFLICT case answers 409. -/
theorem next_role_409_throws_cex :
    (runBlacklightQueue env409).1 =
      .error "Scraper already has an active session" ∧
    (¬ ∃ v, (runBlacklightQueue env409).1 = .ok v) ∧
    scrapeQueueStatus (runBlacklightQueue env409).1 = 500 ∧
    scrapeQueueStatus
      (runBlacklightQueue { env409 with sessionCheck := .ok ⟨true⟩ }).1 = 409 ∧
    (500 : Nat) ≠ 409 := by
  refine ⟨rfl, ?_, rfl, rfl, by decide⟩
  rintro ⟨v, hv⟩
  rw [show (runBlacklightQueue env409).1 =
    .error "Scraper already has an active session" from rfl] at hv
  exact Except.noConfusion hv

/-- Claim C5 (amended): whenever next-role-location returns HTTP 409, the
run throws `'Scraper already has an active session'` — the exception
escapes `runBlacklightQueue` (so the `/scrape-queue` handler catches it
and answers 500, unlike the typed CONFLICT result which is answered 409)
— and zero submit or complete calls are issued that cycle. -/
theorem next_role_409_throws (env : Env)
    (hconf : env.blacklightConfigured = true)
    (hsc : env.sessionCheck = .ok ⟨false⟩)
    (hnr : env.nextRole = .status409) :
    runBlacklightQueue env =
      (.error "Scraper already has an active session",
       [Call.currentSession, Call.nextRoleLocation]) ∧
    scrapeQueueStatus (runBlacklightQueue env).1 = 500 ∧
    (runBlacklightQueue env).2.filter isSubmitOrComplete = [] := by
  have h : runBlacklightQueue env =
      (.error "Scraper already has an active session",
       [Call.currentSession, Call.nextRoleLocation]) := by
    simp [runBlacklightQueue, hconf, hsc, hnr, getNextRoleLocation]
  refine ⟨h, ?_, ?_⟩
  · rw [h]
    rfl
  · rw [h]
    rfl

/-- Claim C5 witness: `next_role_409_throws` at the concrete environment
`env409`. -/
theorem next_role_409_throws_witness :
    runBlacklightQueue env409 =
      (.error "Scraper already has an active session",
       [Call.currentSession, Call.nextRoleLocation]) ∧
    scrapeQueueStatus (runBlacklightQueue env409).1 = 500 ∧
    (runBlacklightQueue env409).2.filter isSubmitOrComplete = [] :=
  next_role_409_throws env409 rfl rfl rfl

/-- Claim C7: platforms are processed strictly sequentially and in exactly
the order of the queue item's platform list (the statement is universally
quantified over all platform lists, hence over every permutation): the
call trace is the concatenation of the per-platform call blocks in list
order, the sequence of scraper invocations equals the (lowercased) input
name list, each block touches only its own platform, and the loop reaches
the end of the list. -/
theorem platforms_processed_in_order (env : Env) (sid : String)
    (ps : List PlatformInfo) (acc : RunResults)
    (hknown : ∀ p ∈ ps, (strToLower p.name) ∈ knownPlatforms) :
    ((processPlatforms env sid ps acc).2 = platformCallsList env sid ps) ∧
    (scrapeSeq ((processPlatforms env sid ps acc).2) =
      ps.map (fun p => (strToLower p.name))) ∧
    (∀ p ∈ ps, (platformCalls env sid p).all (callsFor (strToLower p.name)) = true) ∧
    (∃ r, (processPlatforms env sid ps acc).1 = .ok r) := by
  obtain ⟨r, hproc⟩ := processPlatforms_known env sid ps acc hknown
  rw [hproc]
  exact ⟨rfl, platformCallsList_scrapeSeq env sid ps hknown,
    fun p _ => platformCalls_callsFor env sid p, ⟨r, rfl⟩⟩

/-- Claim C7 witness: `platforms_processed_in_order` on the concrete
environment `envC7` and the platform list of `qiC4` (dice before
linkedin). -/
theorem platforms_processed_in_order_witness :
    ((processPlatforms envC7 "s1" qiC4.platforms (initResults qiC4)).2 =
      platformCallsList envC7 "s1" qiC4.platforms) ∧
    (scrapeSeq ((processPlatforms envC7 "s1" qiC4.platforms (initResults qiC4)).2) =
      qiC4.platforms.map (fun p => (strToLower p.name))) ∧
    (∀ p ∈ qiC4.platforms,
      (platformCalls envC7 "s1" p).all (callsFor (strToLower p.name)) = true) ∧
    (∃ r, (processPlatforms envC7 "s1" qiC4.platforms (initResults qiC4)).1 = .ok r) :=
  platforms_processed_in_order envC7 "s1" qiC4.platforms (initResults qiC4)
    (by decide)

/-- Claim C1 (as stated, refuted): the re-entrancy guard does *not* bound
all triggers — while a scheduled run is in flight (guard set), a trigger
through the `/scrape-queue` HTTP handler still starts a run (it neither
checks nor sets `isProcessingQueue`), so two orchestrator executions are
concurrently in flight: the trigger is not a no-op. -/
theorem scheduler_guard_bypass_cex :
    inFlight (schedRun initState [.schedStart, .httpStart]) = 2 ∧
    ¬ inFlight (schedRun initState [.schedStart, .httpStart]) ≤ 1 ∧
    (schedRun initState [.schedStart, .httpStart]).guard = true ∧
    (schedRun initState [.schedStart, .httpStart]).httpRuns = 1 := by
  refine ⟨rfl, by decide, rfl, rfl⟩

/-- Claim C1 (amended): restricted to *scheduled* triggers (the only ones
that consult the guard), at most one orchestrator execution is ever in
flight, and a scheduled trigger that fires while the guard is set is a
silent no-op (the state is unchanged — the missed cycle is lost, not
queued); the `/scrape-queue` HTTP handler bypasses the guard
(`scheduler_guard_bypass_cex`). -/
theorem scheduler_guard_sched_only (evs : List Trigger)
    (h : ∀ e ∈ evs, e = Trigger.schedStart ∨ e = Trigger.schedEnd) :
    inFlight (schedRun initState evs) ≤ 1 ∧
    (∀ s : SchedState, s.guard = true → schedStep s .schedStart = s) := by
  obtain ⟨h1, h2⟩ := sched_inv evs initState h rfl rfl
  constructor
  · unfold inFlight
    rw [h1, h2]
    split <;> simp
  · intro s hg
    simp [schedStep, hg]

/-- Claim C1 witness: `scheduler_guard_sched_only` on a concrete
scheduled-only trigger sequence. -/
theorem scheduler_guard_sched_only_witness :
    inFlight (schedRun initState
      [Trigger.schedStart, Trigger.schedStart, Trigger.schedEnd,
       Trigger.schedStart]) ≤ 1 ∧
    (∀ s : SchedState, s.guard = true → schedStep s .schedStart = s) :=
  scheduler_guard_sched_only
    [Trigger.schedStart, Trigger.schedStart, Trigger.schedEnd,
     Trigger.schedStart] (by decide)

/-- Claim C10: a scheduled run that starts (guard initially clear,
Blacklight configured) always leaves the guard clear again — the
`finally` clause runs whatever `runBlacklightQueue` returned *or threw*
(the environment `env` is arbitrary, including every environment whose run
outcome is `Except.error`) — so the next scheduled trigger can always
start a new run, as the trigger-sequence conjunct shows. -/
theorem guard_reset_after_run (env env' : Env) :
    (autoCheckQueue true false env).1 = false ∧
    (autoCheckQueue true false env).2.1 = true ∧
    (autoCheckQueue true false env).2.2 = some (runBlacklightQueue env) ∧
    (autoCheckQueue true (autoCheckQueue true false env).1 env').2.1 = true ∧
    schedRun initState [.schedStart, .schedEnd, .schedStart] =
      { guard := true, schedRuns := 1, httpRuns := 0 } :=
  ⟨rfl, rfl, rfl, rfl, rfl⟩

/-- Claim C8 (as stated, refuted): in Glassdoor's catch block, an error
before `loginSuccess` that matches neither the auth patterns nor the
rate-limit patterns is reported with `cooldownMinutes = 30`, not 0 — and
the error is then re-thrown (Glassdoor has no credential retry loop), not
followed by the next credential. -/
theorem glassdoor_other_error_cooldown_cex :
    glassdoorOnError false "Navigation timeout exceeded" =
      (some ⟨"glassdoor", "Scraping error: Navigation timeout exceeded", 30⟩,
       .rethrow) ∧
    (30 : Nat) ≠ 0 :=
  ⟨rfl, by decide⟩

/-- Claim C8 (amended): before `loginSuccess`, LinkedIn and TechFetch
classify failures by message content into credential-invalid →
`cooldownMinutes = 0`, rate-limited → `60`, anything else → `0`, report
via `reportFailure`, and continue the outer loop with the next credential
(the `credLoop` conjunct: a failed first attempt is followed by the
second credential's attempt); Glassdoor classifies auth → `0` (conjunct
7), rate-limited/blocked → `60` (conjunct 8), but anything else → `30`
(conjunct 9), and always re-throws instead of continuing — it has no
outer credential loop. -/
theorem credential_failure_classification (msg : String) :
    ((strIncludes msg "Login failed" || strIncludes msg "credentials"
        || strIncludes msg "waitForSelector") = true →
      linkedinOnError false msg =
        (⟨"linkedin", "Login failed: " ++ msg, 0⟩, .continueLoop)) ∧
    ((strIncludes msg "Login failed" || strIncludes msg "credentials"
        || strIncludes msg "waitForSelector") = false →
      (strIncludes msg "rate limit" || strIncludes msg "challenge") = true →
      linkedinOnError false msg =
        (⟨"linkedin", "Rate limited or challenge: " ++ msg, 60⟩, .continueLoop)) ∧
    ((strIncludes msg "Login failed" || strIncludes msg "credentials"
        || strIncludes msg "waitForSelector") = false →
      (strIncludes msg "rate limit" || strIncludes msg "challenge") = false →
      linkedinOnError false msg =
        (⟨"linkedin", "Credential error: " ++ msg, 0⟩, .continueLoop)) ∧
    ((strIncludes msg "Login" || strIncludes msg "credentials") = true →
      techfetchOnError false msg =
        (⟨"techfetch", "Login failed: " ++ msg, 0⟩, .continueLoop)) ∧
    ((strIncludes msg "Login" || strIncludes msg "credentials") = false →
      strIncludes msg "rate limit" = true →
      techfetchOnError false msg =
        (⟨"techfetch", "Rate limited: " ++ msg, 60⟩, .continueLoop)) ∧
    ((strIncludes msg "Login" || strIncludes msg "credentials") = false →
      strIncludes msg "rate limit" = false →
      techfetchOnError false msg =
        (⟨"techfetch", "Credential error: " ++ msg, 0⟩, .continueLoop)) ∧
    ((strIncludes msg "cookie" || strIncludes msg "login"
        || strIncludes msg "auth") = true →
      glassdoorOnError false msg =
        (some ⟨"glassdoor", "Authentication failed: " ++ msg, 0⟩, .rethrow)) ∧
    ((strIncludes msg "cookie" || strIncludes msg "login"
        || strIncludes msg "auth") = false →
      (strIncludes msg "rate limit" || strIncludes msg "blocked") = true →
      glassdoorOnError false msg =
        (some ⟨"glassdoor", "Rate limited or blocked: " ++ msg, 60⟩, .rethrow)) ∧
    ((strIncludes msg "cookie" || strIncludes msg "login"
        || strIncludes msg "auth") = false →
      (strIncludes msg "rate limit" || strIncludes msg "blocked") = false →
      glassdoorOnError false msg =
        (some ⟨"glassdoor", "Scraping error: " ++ msg, 30⟩, .rethrow)) ∧
    (∀ (ls : Bool) (m : String), (glassdoorOnError ls m).2 = .rethrow) ∧
    (∀ (d : String) (f : Nat → AttemptOutcome) (jobs : List String)
        (m : String) (ls : Bool),
      f 0 = .failure m ls → f 1 = .success jobs →
      credLoop linkedinOnError d f 3 0 none =
        (.ok jobs, [(linkedinOnError ls m).1])) := by
  refine ⟨?_, ?_, ?_, ?_, ?_, ?_, ?_, ?_, ?_, ?_, ?_⟩
  · intro h1
    simp [linkedinOnError, h1]
  · intro h1 h2
    simp [linkedinOnError, h1, h2]
  · intro h1 h2
    simp [linkedinOnError, h1, h2]
  · intro h1
    simp [techfetchOnError, h1]
  · intro h1 h2
    simp [techfetchOnError, h1, h2]
  · intro h1 h2
    simp [techfetchOnError, h1, h2]
  · intro h1
    simp [glassdoorOnError, h1]
  · intro h1 h2
    simp [glassdoorOnError, h1, h2]
  · intro h1 h2
    simp [glassdoorOnError, h1, h2]
  · intro ls m
    by_cases hls : ls
    · simp [glassdoorOnError, hls]
    · simp only [Bool.not_eq_true] at hls
      subst hls
      simp only [glassdoorOnError]
      split
      · split
        · rfl
        · split <;> rfl
      · rfl
  · intro d f jobs m ls h0 h1
    simp [credLoop, h0, h1]

/-- Claim C8 witness: `credential_failure_classification` evaluated on
concrete messages — an unclassified LinkedIn error cools down 0 minutes
and continues; a Glassdoor auth error cools down 0 minutes, a Glassdoor
blocked error 60 minutes, an unclassified Glassdoor error 30 minutes, all
re-thrown; and a first-credential failure is followed by the second
credential succeeding. -/
theorem credential_failure_classification_witness :
    linkedinOnError false "boom" =
      (⟨"linkedin", "Credential error: " ++ "boom", 0⟩, .continueLoop) ∧
    glassdoorOnError false "login page not found" =
      (some ⟨"glassdoor", "Authentication failed: " ++ "login page not found",
        0⟩, .rethrow) ∧
    glassdoorOnError false "blocked by server" =
      (some ⟨"glassdoor", "Rate limited or blocked: " ++ "blocked by server",
        60⟩, .rethrow) ∧
    glassdoorOnError false "boom" =
      (some ⟨"glassdoor", "Scraping error: " ++ "boom", 30⟩, .rethrow) ∧
    credLoop linkedinOnError "none left" attemptW 3 0 none =
      (.ok ["j"], [(linkedinOnError false "x").1]) :=
  ⟨(credential_failure_classification "boom").2.2.1 (by decide) (by decide),
   (credential_failure_classification "login page not found").2.2.2.2.2.2.1
     (by decide),
   (credential_failure_classification "blocked by server").2.2.2.2.2.2.2.1
     (by decide) (by decide),
   (credential_failure_classification "boom").2.2.2.2.2.2.2.2.1
     (by decide) (by decide),
   (credential_failure_classification "boom").2.2.2.2.2.2.2.2.2.2
     "none left" attemptW ["j"] "x" false rfl rfl⟩

/-- Claim C9 (as stated, refuted): acquiring a second credential for a
platform whose lease is still tracked does *not* assert or panic —
`getCredential` unconditionally `Map.set`s, silently replacing the tracked
lease (id 1 is replaced by id 2). -/
theorem lease_silent_replace_cex :
    mapGet (getCredentialTrack [("linkedin", 1)] "linkedin" 2) "linkedin" =
      some 2 ∧
    getCredentialTrack [("linkedin", 1)] "linkedin" 2 = [("linkedin", 2)] ∧
    some (2 : Nat) ≠ some 1 :=
  ⟨by decide, by decide, by decide⟩

/-- Claim C9 (amended): the client's lease map tracks at most one lease
per platform (pairwise-distinct keys are preserved by acquisition), and
acquiring while a lease is already tracked *silently replaces* it with the
new credential — there is no assertion or panic path. -/
theorem lease_tracking_replace (m : List (String × Nat)) (k : String)
    (v : Nat) (h : keysNodup m) :
    keysNodup (getCredentialTrack m k v) ∧
    mapGet (getCredentialTrack m k v) k = some v :=
  ⟨mapSet_keysNodup k v m h, mapGet_mapSet_self k v m⟩

/-- Claim C9 witness: `lease_tracking_replace` at a concrete one-entry
map. -/
theorem lease_tracking_replace_witness :
    keysNodup (getCredentialTrack [("glassdoor", 7)] "linkedin" 3) ∧
    mapGet (getCredentialTrack [("glassdoor", 7)] "linkedin" 3) "linkedin" =
      some 3 :=
  lease_tracking_replace [("glassdoor", 7)] "linkedin" 3
    (by simp [keysNodup])

end Scraper
